import Mathlib

/-!
Verification of the Data_Bleed chat backend (`src/main.py`).

This file gives a shallow embedding of the backend's decision engine:
the intent classifier (`contains_any`), the per-session Trust/Outcome
engine (`decide_outcome_and_update`), the session store (`get_session`),
the `/api/chat` handler (`chat`), and the generation orchestrator
(`generate_ai_response`) with its canned fallback responses.

Modelling conventions:
* Python strings are modelled as `List Char`; `str.lower()` is ASCII
  lowercasing (`Char.toLower`), which agrees with Python on the ASCII
  keywords and messages this system manipulates; `str.strip()` strips
  ASCII whitespace.
* Python `int` is `Int`.
* The in-memory session dictionary `session_state` is an association
  list keyed by session id; `storeSet` replaces in place or appends,
  matching dictionary assignment.
* A fresh Python session dict has no `"trust_score"` key; every read of
  it is `session.get("trust_score", 0)`, so the field is modelled as an
  `Int` initialised to `0`.
* The OpenAI client and the outcome of the network call are inputs:
  `clientPresent : Bool` models whether the client was initialised at
  startup, and `ModelCall` models the result of
  `client.chat.completions.create` (its text on success, the exception
  text `str(e)` on failure).
-/

namespace DataBleed

/-- Python `c.lower()` on a single character (ASCII case folding). -/
def pyLowerChar (c : Char) : Char := c.toLower

/-- Python `s.lower()` (ASCII case folding suffices for this system's data). -/
def lowerStr (s : List Char) : List Char := s.map pyLowerChar

/-- ASCII whitespace stripped by Python `str.strip()`. -/
def pyIsSpace (c : Char) : Bool :=
  c = ' ' || c = '\t' || c = '\n' || c = '\x0d' || c = '\x0b' || c = '\x0c'

/-- Python `s.strip()`: drop leading and trailing whitespace. -/
def pyStrip (s : List Char) : List Char :=
  ((s.dropWhile pyIsSpace).reverse.dropWhile pyIsSpace).reverse

/-- Does `pat` start `t`? (List prefix test, used to build Python `in`.) -/
def startsWith : List Char → List Char → Bool
  | [], _ => true
  | _ :: _, [] => false
  | p :: ps, c :: cs => p = c && startsWith ps cs

/-- Python substring containment `pat in t`. -/
def strIn (pat : List Char) : List Char → Bool
  | [] => startsWith pat []
  | c :: cs => startsWith pat (c :: cs) || strIn pat cs

/-- `contains_any(text, keywords)` from `src/main.py`:
`any(k.lower() in text.lower() for k in keywords)`. -/
def contains_any (text : List Char) (keywords : List (List Char)) : Bool :=
  keywords.any (fun k => strIn (lowerStr k) (lowerStr text))

/-- A character's `intent_rules` block from the catalog. -/
structure IntentRules where
  success_keywords : List (List Char)
  fail_keywords : List (List Char)
deriving DecidableEq

/-- A character's `thresholds` block (defaults `warn_after=2, fail_after=4`
are applied by `decide_outcome_and_update` when the block is missing, so a
config with the defaults filled in is what this structure holds). -/
structure Thresholds where
  warn_after : Int
  fail_after : Int
deriving DecidableEq

/-- One character's configuration from `characters.json`. -/
structure CharCfg where
  intent_rules : IntentRules
  thresholds : Thresholds
  lore : List Char
deriving DecidableEq

/-- Per-session mutable state held in `session_state`. -/
structure Session where
  character : List Char
  wrong_count : Int
  logo_stage : Int
  trust_score : Int
deriving DecidableEq

/-- The session dict created by `get_session` on first touch
(`{"character": c, "wrong_count": 0, "logo_stage": 1}`; the absent
`"trust_score"` key reads as 0 everywhere). -/
def freshSession (character : List Char) : Session :=
  { character := character, wrong_count := 0, logo_stage := 1, trust_score := 0 }

/-- The `session_state` dictionary: session id → session. -/
abbrev Store := List (List Char × Session)

/-- Dictionary lookup on the store. -/
def storeFind : Store → List Char → Option Session
  | [], _ => none
  | (k, v) :: rest, sid => if k = sid then some v else storeFind rest sid

/-- Dictionary assignment on the store: replace in place, else append. -/
def storeSet : Store → List Char → Session → Store
  | [], sid, s => [(sid, s)]
  | (k, v) :: rest, sid, s =>
      if k = sid then (sid, s) :: rest else (k, v) :: storeSet rest sid s

/-- `get_session(session_id, character)` from `src/main.py`: create the
session on first touch; if the stored session is bound to a different
character, discard it and recreate from scratch. Returns the updated
store together with the session the handler works on. -/
def get_session (store : Store) (session_id character : List Char) :
    Store × Session :=
  match storeFind store session_id with
  | none =>
      (storeSet store session_id (freshSession character), freshSession character)
  | some s =>
      if s.character ≠ character then
        (storeSet store session_id (freshSession character), freshSession character)
      else
        (store, s)

/-- `decide_outcome_and_update(session, char_cfg, user_msg, used_ai_fallback)`
from `src/main.py`. Returns the updated session and the outcome string
(`"success"`, `"fail"` or `"neutral"`), mirroring the Python function's
in-place mutation plus return value. -/
def decide_outcome_and_update (session : Session) (char_cfg : CharCfg)
    (user_msg : List Char) (used_ai_fallback : Bool) : Session × List Char :=
  if contains_any user_msg char_cfg.intent_rules.success_keywords then
    ({ session with wrong_count := max 0 (session.wrong_count - 1), logo_stage := 1 },
     "success".toList)
  else if contains_any user_msg char_cfg.intent_rules.fail_keywords then
    let session := { session with
      wrong_count := session.wrong_count + 1,
      logo_stage := min 5 (session.logo_stage + 1) }
    if session.wrong_count ≥ char_cfg.thresholds.fail_after then
      (session, "fail".toList)
    else
      (session, "neutral".toList)
  else if used_ai_fallback then
    let session := { session with wrong_count := session.wrong_count + 1 }
    let session := { session with
      logo_stage :=
        if session.wrong_count ≥ char_cfg.thresholds.warn_after then
          min 5 (session.logo_stage + 1)
        else
          session.logo_stage }
    if session.wrong_count ≥ char_cfg.thresholds.fail_after then
      (session, "fail".toList)
    else
      (session, "neutral".toList)
  else
    (session, "neutral".toList)

/-- Run the Trust/Outcome engine over a list of `(message, used_ai_fallback)`
inputs, returning the final session and the outcome of each call in order. -/
def engineTrace (char_cfg : CharCfg) :
    Session → List (List Char × Bool) → Session × List (List Char)
  | s, [] => (s, [])
  | s, (m, fb) :: rest =>
      let r := decide_outcome_and_update s char_cfg m fb
      let t := engineTrace char_cfg r.1 rest
      (t.1, r.2 :: t.2)

/-- `GUARDIAN_PROMPT` from `src/main.py`. -/
def GUARDIAN_PROMPT : List Char :=
  "You are a calm, empathetic guide. Your goal is to help the player spot red flags and stay safe.".toList

/-- `DECEIVER_PROMPT` from `src/main.py`. -/
def DECEIVER_PROMPT : List Char :=
  "You are manipulative, deceptive, and persuasive. Your goal is to lure the player into making risky decisions.".toList

/-- `build_system_prompt(character, char_cfg, persona_prompt)` from
`src/main.py`: persona text, then a labeled lore block, then guardrails. -/
def build_system_prompt (_character : List Char) (char_cfg : CharCfg)
    (persona_prompt : List Char) : List Char :=
  persona_prompt ++ "\n\nGame Lore Context:\n".toList ++ char_cfg.lore ++
    "\n\nRules:\nStay strictly in-character. Be concise. Your goal is to advance the narrative of the Data_Bleed game.".toList

/-- `get_rate_limit_fallback(character, user_message)` from `src/main.py`
(the template texts are copied byte-for-byte from the source file). -/
def get_rate_limit_fallback (character user_message : List Char) : List Char :=
  if character = "maya".toList then
    "â³ Maya here - I'm getting a lot of messages right now. Give me a moment to process your message about '".toList
      ++ user_message.take 30 ++ "...' and I'll respond thoughtfully.".toList
  else if character = "eli".toList then
    "â³ Eli speaking - Whoa, lots of activity! Let me catch up on your message about '".toList
      ++ user_message.take 30 ++ "...' Just need a sec to think it through.".toList
  else if character = "stanley".toList then
    "â³ Stanley here - I'm processing many conversations right now. Your message about '".toList
      ++ user_message.take 30 ++ "...' is important, just give me a moment.".toList
  else
    "â³ I'm experiencing high traffic right now. Please try again in a moment.".toList

/-- `get_connection_fallback(character, user_message)` from `src/main.py`. -/
def get_connection_fallback (character user_message : List Char) : List Char :=
  if character = "maya".toList then
    "ğŸ”„ Maya here - I'm having some connection issues, but I caught your message about '".toList
      ++ user_message.take 30 ++ "...' Let me give you a quick response while I reconnect.".toList
  else if character = "eli".toList then
    "ğŸ”„ Eli speaking - Network's being wonky, but I heard you mention '".toList
      ++ user_message.take 30 ++ "...' Let me work with what I've got here.".toList
  else if character = "stanley".toList then
    "ğŸ”„ Stanley here - Technical difficulties on my end, but regarding your message about '".toList
      ++ user_message.take 30 ++ "...' I can still help you out.".toList
  else
    "ğŸ”„ I'm experiencing connection issues. Please try again shortly.".toList

/-- `get_invalid_request_fallback(character, user_message)` from `src/main.py`. -/
def get_invalid_request_fallback (character user_message : List Char) : List Char :=
  if character = "maya".toList then
    "ğŸ¤” Maya here - Something about your message '".toList
      ++ user_message.take 30 ++ "...' is causing me technical issues. Could you rephrase that?".toList
  else if character = "eli".toList then
    "ğŸ¤” Eli speaking - Your message '".toList
      ++ user_message.take 30 ++ "...' is breaking my brain a bit. Mind trying a different way to say that?".toList
  else if character = "stanley".toList then
    "ğŸ¤” Stanley here - I'm having trouble processing '".toList
      ++ user_message.take 30 ++ "...' Could you try asking that differently?".toList
  else
    "ğŸ¤” I'm having trouble understanding that request. Could you rephrase it?".toList

/-- `get_generic_ai_fallback(character, user_message)` from `src/main.py`. -/
def get_generic_ai_fallback (character user_message : List Char) : List Char :=
  if character = "maya".toList then
    "âš ï¸ Maya here - I'm having some technical difficulties, but I understand you're asking about '".toList
      ++ user_message.take 30 ++ "...' Let me try to help despite the issues.".toList
  else if character = "eli".toList then
    "âš ï¸ Eli speaking - My AI systems are acting up, but I caught your message about '".toList
      ++ user_message.take 30 ++ "...' I'll do my best to respond.".toList
  else if character = "stanley".toList then
    "âš ï¸ Stanley here - Technical problems on my end, but regarding '".toList
      ++ user_message.take 30 ++ "...' I'll give you what I can.".toList
  else
    "âš ï¸ I'm experiencing technical difficulties. Please try again later.".toList

/-- `get_demo_mode_response(character, user_message)` from `src/main.py`. -/
def get_demo_mode_response (character user_message : List Char) : List Char :=
  if character = "maya".toList then
    "ğŸ‘‹ Hi! I'm Maya. I received your message: '".toList
      ++ user_message.take 50 ++ "...' This is demo mode - add your OpenAI API key for full AI responses.".toList
  else if character = "eli".toList then
    "ğŸ‘‹ Hey! Eli here. Got your message: '".toList
      ++ user_message.take 50 ++ "...' Running in demo mode - need OpenAI API key for smart responses.".toList
  else if character = "stanley".toList then
    "ğŸ‘‹ Hello! Stanley speaking. About your message: '".toList
      ++ user_message.take 50 ++ "...' This is demo mode - please configure OpenAI API key.".toList
  else
    "ğŸ‘‹ Demo mode - please configure OpenAI API key for full functionality.".toList

/-- The result of the call `client.chat.completions.create(...)`: its reply
text on success, or the caught exception's text `str(e)` on failure. -/
inductive ModelCall where
  | ok : List Char → ModelCall
  | err : List Char → ModelCall
deriving DecidableEq

/-- The four failure categories `generate_ai_response` distinguishes. -/
inductive FailureCategory where
  | rateLimit
  | connection
  | invalidRequest
  | generic
deriving DecidableEq

/-- The error sniffing performed in `generate_ai_response`'s `except` branch,
as a standalone view: `error_str = str(e).lower()` is tested against
substrings in this fixed order. -/
def classify_error (e : List Char) : FailureCategory :=
  let error_str := lowerStr e
  if strIn "rate limit".toList error_str || strIn "429".toList error_str then
    .rateLimit
  else if strIn "timeout".toList error_str || strIn "connection".toList error_str then
    .connection
  else if strIn "invalid".toList error_str || strIn "400".toList error_str then
    .invalidRequest
  else
    .generic

/-- The canned response associated with each failure category. -/
def fallbackFor (cat : FailureCategory) (character user_message : List Char) :
    List Char :=
  match cat with
  | .rateLimit => get_rate_limit_fallback character user_message
  | .connection => get_connection_fallback character user_message
  | .invalidRequest => get_invalid_request_fallback character user_message
  | .generic => get_generic_ai_fallback character user_message

/-- `generate_ai_response(character, user_message, system_prompt, request_id)`
from `src/main.py`. `clientPresent` is whether the OpenAI client was
initialised at startup; `call` is the external call's result. The system
prompt is an input of the live call only, so it does not influence the
fallback text. -/
def generate_ai_response (clientPresent : Bool) (call : ModelCall)
    (character user_message _system_prompt : List Char) : List Char :=
  if clientPresent then
    match call with
    | .ok reply_text => reply_text
    | .err e =>
        let error_str := lowerStr e
        if strIn "rate limit".toList error_str || strIn "429".toList error_str then
          get_rate_limit_fallback character user_message
        else if strIn "timeout".toList error_str || strIn "connection".toList error_str then
          get_connection_fallback character user_message
        else if strIn "invalid".toList error_str || strIn "400".toList error_str then
          get_invalid_request_fallback character user_message
        else
          get_generic_ai_fallback character user_message
  else
    get_demo_mode_response character user_message

/-- Modelled from the spec: the `usedFallback` flag of the Generation
Orchestrator's contract (§4.4, §8). The source's `generate_ai_response`
returns only the reply text; the flag the spec attaches to the result is
whether a canned (non-live) response was produced, which is true on every
branch except a successful live call with the client configured. -/
def usedFallbackFlag (clientPresent : Bool) (call : ModelCall) : Bool :=
  match clientPresent, call with
  | true, .ok _ => false
  | true, .err _ => true
  | false, _ => true

/-- A JSON value appearing in the chat endpoint's response object. -/
inductive Val where
  | str : List Char → Val
  | int : Int → Val
deriving DecidableEq

/-- The JSON object a handler returns: ordered key/value pairs. -/
abbrev Response := List (List Char × Val)

/-- First value bound to a key in a response object, if any. -/
def respFind : Response → List Char → Option Val
  | [], _ => none
  | (k, v) :: rest, key => if k = key then some v else respFind rest key

/-- An `HTTPException(status_code, detail)` raised by the endpoint. -/
structure HTTPError where
  status : Nat
  detail : List Char
deriving DecidableEq

/-- The body of a POST to `/api/chat` (`ChatRequest` in `src/main.py`);
`sessionId` is optional with Python default `"default"`. -/
structure ChatRequest where
  message : List Char
  character : List Char
  sessionId : Option (List Char)
deriving DecidableEq

/-- The character catalog `CHARACTERS` loaded from `characters.json`:
character id → configuration. -/
abbrev Catalog := List (List Char × CharCfg)

/-- Dictionary lookup on the catalog. -/
def catFind : Catalog → List Char → Option CharCfg
  | [], _ => none
  | (k, v) :: rest, c => if k = c then some v else catFind rest c

/-- The chat handler's character normalisation:
`(req.character or "").lower().strip()`. -/
def normChar (c : List Char) : List Char := pyStrip (lowerStr c)

/-- The chat handler's session id defaulting: `req.sessionId or "default"`
(both `None` and the empty string are falsy in Python). -/
def normSessionId : Option (List Char) → List Char
  | none => "default".toList
  | some s => if s = [] then "default".toList else s

/-- The chat handler's trust-score update (`src/main.py` lines 572-578):
minus 20 on a success keyword, else plus 20 on a fail keyword, else
unchanged. -/
def chatTrust (char_cfg : CharCfg) (user_message : List Char) (trust_score : Int) : Int :=
  if contains_any user_message char_cfg.intent_rules.success_keywords then
    trust_score - 20
  else if contains_any user_message char_cfg.intent_rules.fail_keywords then
    trust_score + 20
  else
    trust_score

/-- The `/api/chat` handler (`chat` in `src/main.py`), happy path and
`HTTPException` paths. Inputs beyond the request: the catalog, whether the
OpenAI client exists, the external call's result, the current session
store, and the request id the logging middleware attached. Returns the
updated store and the response object, or the raised `HTTPException`.
Detail strings of the 400 errors are abbreviated. -/
def chat (catalog : Catalog) (clientPresent : Bool) (call : ModelCall)
    (store : Store) (req : ChatRequest) (request_id : List Char) :
    Except HTTPError (Store × Response) :=
  let character := normChar req.character
  let user_message := pyStrip req.message
  let session_id := normSessionId req.sessionId
  if character = [] then
    .error { status := 400, detail := "Character is required".toList }
  else
    match catFind catalog character with
    | none =>
        .error { status := 400, detail := "Unknown character".toList }
    | some char_cfg =>
        if user_message = [] then
          .error { status := 400, detail := "Message cannot be empty".toList }
        else if 1000 < user_message.length then
          .error { status := 400, detail := "Message too long (max 1000 characters)".toList }
        else
          let gs := get_session store session_id character
          let trust_score := chatTrust char_cfg user_message gs.2.trust_score
          let session := { gs.2 with trust_score := trust_score }
          let store := storeSet gs.1 session_id session
          let persona_prompt :=
            if trust_score ≥ 0 then DECEIVER_PROMPT else GUARDIAN_PROMPT
          let persona :=
            if trust_score ≥ 0 then "deceiver".toList else "guardian".toList
          let system_prompt := build_system_prompt character char_cfg persona_prompt
          let reply_text :=
            generate_ai_response clientPresent call character user_message system_prompt
          .ok (store,
            [("reply".toList, .str reply_text),
             ("trust_score".toList, .int trust_score),
             ("persona".toList, .str persona),
             ("request_id".toList, .str request_id)])

/-- Persona selection as a standalone projection of the trust score. -/
def personaOf (trust_score : Int) : List Char :=
  if trust_score ≥ 0 then "deceiver".toList else "guardian".toList

/-! ### Helper lemmas about the store and the session lookup -/

theorem storeFind_storeSet_self (store : Store) (sid : List Char) (s : Session) :
    storeFind (storeSet store sid s) sid = some s := by
  induction store with
  | nil => simp [storeSet, storeFind]
  | cons kv rest ih =>
      by_cases h : kv.1 = sid
      · simp [storeSet, storeFind, h]
      · simp [storeSet, storeFind, h, ih]

theorem storeFind_storeSet_ne (store : Store) (sid sid' : List Char) (s : Session)
    (h : ¬ sid' = sid) :
    storeFind (storeSet store sid s) sid' = storeFind store sid' := by
  have h' : ¬ sid = sid' := fun he => h he.symm
  induction store with
  | nil => simp [storeSet, storeFind, h']
  | cons kv rest ih =>
      by_cases hk : kv.1 = sid
      · simp [storeSet, storeFind, hk, h']
      · simp [storeSet, storeFind, hk, ih]

theorem get_session_fresh (store : Store) (sid ch : List Char)
    (h : storeFind store sid = none) :
    get_session store sid ch =
      (storeSet store sid (freshSession ch), freshSession ch) := by
  simp [get_session, h]

theorem get_session_found_same (store : Store) (sid ch : List Char) (s : Session)
    (h : storeFind store sid = some s) (hc : s.character = ch) :
    get_session store sid ch = (store, s) := by
  simp [get_session, h, hc]

theorem get_session_rebind (store : Store) (sid ch : List Char) (s : Session)
    (h : storeFind store sid = some s) (hc : ¬ s.character = ch) :
    get_session store sid ch =
      (storeSet store sid (freshSession ch), freshSession ch) := by
  simp [get_session, h, hc]

/-! ### The chat handler's happy path, as one equation -/

/-- When the request passes all four validations, `chat` runs the happy
path: the session bound by `get_session` gets its trust score updated by
`chatTrust` and written back, and the response carries the generated reply,
the updated trust score, the persona selected from it, and the request id. -/
theorem chat_ok (catalog : Catalog) (cp : Bool) (call : ModelCall) (store : Store)
    (req : ChatRequest) (rid : List Char) (cfg : CharCfg)
    (hch : ¬ normChar req.character = [])
    (hcat : catFind catalog (normChar req.character) = some cfg)
    (hm : ¬ pyStrip req.message = [])
    (hlen : ¬ 1000 < (pyStrip req.message).length) :
    chat catalog cp call store req rid =
      (let character := normChar req.character
       let user_message := pyStrip req.message
       let session_id := normSessionId req.sessionId
       let gs := get_session store session_id character
       let trust_score := chatTrust cfg user_message gs.2.trust_score
       .ok (storeSet gs.1 session_id { gs.2 with trust_score := trust_score },
         [("reply".toList, .str (generate_ai_response cp call character user_message
             (build_system_prompt character cfg
               (if trust_score ≥ 0 then DECEIVER_PROMPT else GUARDIAN_PROMPT)))),
          ("trust_score".toList, .int trust_score),
          ("persona".toList, .str (personaOf trust_score)),
          ("request_id".toList, .str rid)])) := by
  simp only [chat]
  rw [if_neg hch, hcat]
  dsimp only
  rw [if_neg hm, if_neg hlen]
  rfl

/-- If `chat` answered `.ok`, all four validations passed. -/
theorem chat_ok_inv (catalog : Catalog) (cp : Bool) (call : ModelCall) (store : Store)
    (req : ChatRequest) (rid : List Char) (store' : Store) (resp : Response)
    (hok : chat catalog cp call store req rid = .ok (store', resp)) :
    ∃ cfg, ¬ normChar req.character = [] ∧
      catFind catalog (normChar req.character) = some cfg ∧
      ¬ pyStrip req.message = [] ∧ ¬ 1000 < (pyStrip req.message).length := by
  by_cases h1 : normChar req.character = []
  · simp [chat, h1] at hok
  · cases hcat : catFind catalog (normChar req.character) with
    | none => simp [chat, h1, hcat] at hok
    | some cfg =>
        by_cases h2 : pyStrip req.message = []
        · simp [chat, h1, hcat, h2] at hok
        · by_cases h3 : 1000 < (pyStrip req.message).length
          · simp [chat, h1, hcat, h2, h3] at hok
          · exact ⟨cfg, h1, rfl, h2, h3⟩

/-! ### Concrete test fixtures

`scenarioCfg` is the character configuration of the spec's concrete
scenario (§8): `successKeywords=["sorry"]`, `failKeywords=["click here"]`,
`thresholds={warnAfter:2, failAfter:4}`. `demoCatalog` is a one-character
catalog binding it to the id `"maya"`. -/

def scenarioCfg : CharCfg :=
  { intent_rules :=
      { success_keywords := ["sorry".toList], fail_keywords := ["click here".toList] },
    thresholds := { warn_after := 2, fail_after := 4 },
    lore := [] }

def demoCatalog : Catalog := [("maya".toList, scenarioCfg)]

/-- Four consecutive `"click here"` messages, no fallback flag. -/
def clickInputs : List (List Char × Bool) :=
  [("click here".toList, false), ("click here".toList, false),
   ("click here".toList, false), ("click here".toList, false)]

/-- A neutral probe request against `demoCatalog`. -/
def probeReq : ChatRequest :=
  { message := "hi there".toList, character := "maya".toList, sessionId := none }

/-- The store and response the probe request produces on an empty store in
demo mode (no OpenAI client). -/
def probeResult : Store × Response :=
  match chat demoCatalog false (.err []) [] probeReq "r1".toList with
  | .ok r => r
  | .error _ => ([], [])

/-! ### The engine's counter invariant -/

/-- The counters' invariant: `wrong_count` nonnegative, `logo_stage` in
`[1,5]`. -/
def SessionInv (s : Session) : Prop :=
  0 ≤ s.wrong_count ∧ 1 ≤ s.logo_stage ∧ s.logo_stage ≤ 5

theorem decide_outcome_preserves_inv (s : Session) (cfg : CharCfg)
    (m : List Char) (fb : Bool) (h : SessionInv s) :
    SessionInv (decide_outcome_and_update s cfg m fb).1 := by
  obtain ⟨hw, hl1, hl5⟩ := h
  simp only [decide_outcome_and_update, SessionInv]
  split_ifs <;> simp_all <;> omega

theorem engineTrace_inv (cfg : CharCfg) (inputs : List (List Char × Bool))
    (s : Session) (h : SessionInv s) :
    SessionInv (engineTrace cfg s inputs).1 := by
  induction inputs generalizing s with
  | nil => simpa [engineTrace] using h
  | cons mfb rest ih =>
      simp only [engineTrace]
      exact ih _ (decide_outcome_preserves_inv s cfg mfb.1 mfb.2 h)

/-! ### Claim C2: the spec's concrete four-fail scenario -/

/-- C2 (counterexample): on a fresh session for the scenario character
(failKeywords=["click here"], warnAfter=2, failAfter=4), four consecutive
"click here" messages do NOT leave the state the claim describes: the
claimed conjunction (wrongCount=4 and escalationStage=3 and fourth outcome
"fail") is false, because the escalation stage ends at 5, not 3. -/
theorem four_fails_escalation_not_three :
    ¬ ((engineTrace scenarioCfg (freshSession "maya".toList) clickInputs).1.wrong_count = 4 ∧
       (engineTrace scenarioCfg (freshSession "maya".toList) clickInputs).1.logo_stage = 3 ∧
       (engineTrace scenarioCfg (freshSession "maya".toList) clickInputs).2.getLast? =
         some "fail".toList) := by
  decide

/-- C2 (amended): on a fresh session for the scenario character, four
consecutive "click here" messages through the Trust/Outcome engine leave
wrongCount=4 and escalationStage=5 (progression 2→3→4→5, one increment per
fail, capped at 5), the first three outcomes are "neutral" and the fourth
outcome is "fail". -/
theorem four_fails_scenario :
    (engineTrace scenarioCfg (freshSession "maya".toList) clickInputs).1.wrong_count = 4 ∧
    (engineTrace scenarioCfg (freshSession "maya".toList) clickInputs).1.logo_stage = 5 ∧
    (engineTrace scenarioCfg (freshSession "maya".toList) clickInputs).2 =
      ["neutral".toList, "neutral".toList, "neutral".toList, "fail".toList] := by
  decide

/-! ### Claim C4: counter invariants of the Trust/Outcome engine -/

/-- C4: for any character configuration and any sequence of classified
inputs applied to a fresh session via the Trust/Outcome engine, wrongCount
stays ≥ 0 and escalationStage stays within [1,5]; moreover the escalation
stage equals 1 immediately after any Success classification (a message
containing a success keyword), from any session state. -/
theorem engine_counters_invariant :
    (∀ (cfg : CharCfg) (ch : List Char) (inputs : List (List Char × Bool)),
      0 ≤ (engineTrace cfg (freshSession ch) inputs).1.wrong_count ∧
      1 ≤ (engineTrace cfg (freshSession ch) inputs).1.logo_stage ∧
      (engineTrace cfg (freshSession ch) inputs).1.logo_stage ≤ 5) ∧
    (∀ (cfg : CharCfg) (s : Session) (m : List Char) (fb : Bool),
      contains_any m cfg.intent_rules.success_keywords = true →
      (decide_outcome_and_update s cfg m fb).1.logo_stage = 1) := by
  constructor
  · intro cfg ch inputs
    exact engineTrace_inv cfg inputs _
      ⟨le_refl 0, le_refl 1, by show (1 : Int) ≤ 5; norm_num⟩
  · intro cfg s m fb hs
    simp [decide_outcome_and_update, hs]

/-- C4 (witness): the invariant at the concrete four-fail scenario, and the
success-resets-stage fact at a concrete "sorry" message. -/
theorem engine_counters_invariant_witness :
    (0 ≤ (engineTrace scenarioCfg (freshSession "maya".toList) clickInputs).1.wrong_count ∧
     1 ≤ (engineTrace scenarioCfg (freshSession "maya".toList) clickInputs).1.logo_stage ∧
     (engineTrace scenarioCfg (freshSession "maya".toList) clickInputs).1.logo_stage ≤ 5) ∧
    (decide_outcome_and_update
      { character := "maya".toList, wrong_count := 3, logo_stage := 4, trust_score := 40 }
      scenarioCfg "sorry".toList false).1.logo_stage = 1 :=
  ⟨engine_counters_invariant.1 scenarioCfg "maya".toList clickInputs,
   engine_counters_invariant.2 scenarioCfg
     { character := "maya".toList, wrong_count := 3, logo_stage := 4, trust_score := 40 }
     "sorry".toList false (by decide)⟩

/-! ### Claim C9: failure classification and canned fallbacks -/

theorem generate_err_uses_classification
    (e character user_message system_prompt : List Char) :
    generate_ai_response true (.err e) character user_message system_prompt =
      fallbackFor (classify_error e) character user_message := by
  simp only [generate_ai_response, classify_error]
  split_ifs <;> rfl

/-- C9: a failed external call is classified by case-insensitive substring
match on the failure text, in the fixed order rate-limit, then
connection/timeout, then invalid-request, then generic (each category fires
exactly when its substrings match and no earlier category's do), and the
reply is the canned fallback of the category; the maya rate-limit fallback
contains the first 30 characters of the user's message and differs from the
maya connection fallback on every input. -/
theorem error_classification_and_fallbacks :
    (∀ e : List Char,
      (classify_error e = .rateLimit ↔
        (strIn "rate limit".toList (lowerStr e) || strIn "429".toList (lowerStr e)) = true) ∧
      (classify_error e = .connection ↔
        ((strIn "rate limit".toList (lowerStr e) || strIn "429".toList (lowerStr e)) = false ∧
         (strIn "timeout".toList (lowerStr e) || strIn "connection".toList (lowerStr e)) = true)) ∧
      (classify_error e = .invalidRequest ↔
        ((strIn "rate limit".toList (lowerStr e) || strIn "429".toList (lowerStr e)) = false ∧
         (strIn "timeout".toList (lowerStr e) || strIn "connection".toList (lowerStr e)) = false ∧
         (strIn "invalid".toList (lowerStr e) || strIn "400".toList (lowerStr e)) = true)) ∧
      (classify_error e = .generic ↔
        ((strIn "rate limit".toList (lowerStr e) || strIn "429".toList (lowerStr e)) = false ∧
         (strIn "timeout".toList (lowerStr e) || strIn "connection".toList (lowerStr e)) = false ∧
         (strIn "invalid".toList (lowerStr e) || strIn "400".toList (lowerStr e)) = false)) ∧
      (∀ character user_message system_prompt : List Char,
        generate_ai_response true (.err e) character user_message system_prompt =
          fallbackFor (classify_error e) character user_message)) ∧
    (∀ user_message : List Char,
      (∃ p q, get_rate_limit_fallback "maya".toList user_message =
        p ++ user_message.take 30 ++ q) ∧
      get_rate_limit_fallback "maya".toList user_message ≠
        get_connection_fallback "maya".toList user_message) := by
  constructor
  · intro e
    refine ⟨?_, ?_, ?_, ?_, fun ch m sp => generate_err_uses_classification e ch m sp⟩ <;>
    · cases hA : (strIn "rate limit".toList (lowerStr e) || strIn "429".toList (lowerStr e)) <;>
      cases hB : (strIn "timeout".toList (lowerStr e) || strIn "connection".toList (lowerStr e)) <;>
      cases hC : (strIn "invalid".toList (lowerStr e) || strIn "400".toList (lowerStr e)) <;>
      · simp only [classify_error, hA, hB, hC]
        decide
  · intro m
    refine ⟨⟨_, _, rfl⟩, ?_⟩
    intro hEq
    have h1 : (get_rate_limit_fallback "maya".toList m).head? = some 'â' := rfl
    have h2 : (get_connection_fallback "maya".toList m).head? = some 'ğ' := rfl
    rw [hEq, h2] at h1
    exact absurd h1 (by decide)

/-! ### Claim C10: demo mode -/

/-- C10: when no OpenAI client is configured, the generation step returns
the per-character demo-mode canned response whatever the external call
would have produced (the call is never consulted), and the result counts
as a fallback. -/
theorem demo_mode_skips_external_call :
    ∀ (call : ModelCall) (character user_message system_prompt : List Char),
      generate_ai_response false call character user_message system_prompt =
        get_demo_mode_response character user_message ∧
      usedFallbackFlag false call = true := by
  intro call ch m sp
  refine ⟨rfl, ?_⟩
  cases call <;> rfl

/-! ### Claim C1: the shape of the chat response -/

theorem respFind_reply (a b c d : Val) :
    respFind [("reply".toList, a), ("trust_score".toList, b),
      ("persona".toList, c), ("request_id".toList, d)] "reply".toList = some a := by
  simp only [respFind]
  exact if_pos trivial

theorem respFind_trust (a b c d : Val) :
    respFind [("reply".toList, a), ("trust_score".toList, b),
      ("persona".toList, c), ("request_id".toList, d)] "trust_score".toList = some b := by
  simp only [respFind]
  rw [if_neg (by decide)]
  exact if_pos trivial

theorem respFind_persona (a b c d : Val) :
    respFind [("reply".toList, a), ("trust_score".toList, b),
      ("persona".toList, c), ("request_id".toList, d)] "persona".toList = some c := by
  simp only [respFind]
  rw [if_neg (by decide), if_neg (by decide)]
  exact if_pos trivial

theorem respFind_outcome (a b c d : Val) :
    respFind [("reply".toList, a), ("trust_score".toList, b),
      ("persona".toList, c), ("request_id".toList, d)] "outcome".toList = none := by
  simp only [respFind]
  rw [if_neg (by decide), if_neg (by decide), if_neg (by decide), if_neg (by decide)]

theorem personaOf_cases (t : Int) :
    personaOf t = "deceiver".toList ∨ personaOf t = "guardian".toList := by
  unfold personaOf
  by_cases h : t ≥ 0
  · exact Or.inl (if_pos h)
  · exact Or.inr (if_neg h)

/-- C1 (amended): for every chat request whose character resolves in the
catalog and whose message is non-empty and at most 1000 characters, the
chat handler succeeds and returns a record containing the reply text, the
session's current trust score (the value stored back into the session),
and the persona label ("deceiver" or "guardian") — but NO outcome label:
the response carries no "outcome" field (the outcome engine is not invoked
by the chat handler). -/
theorem handleChat_response_fields
    (catalog : Catalog) (cp : Bool) (call : ModelCall) (store : Store)
    (req : ChatRequest) (rid : List Char) (cfg : CharCfg)
    (hch : ¬ normChar req.character = [])
    (hcat : catFind catalog (normChar req.character) = some cfg)
    (hm : ¬ pyStrip req.message = [])
    (hlen : ¬ 1000 < (pyStrip req.message).length) :
    ∃ store' resp, chat catalog cp call store req rid = .ok (store', resp) ∧
      (∃ r, respFind resp "reply".toList = some (.str r)) ∧
      (∃ t s', respFind resp "trust_score".toList = some (.int t) ∧
        storeFind store' (normSessionId req.sessionId) = some s' ∧
        s'.trust_score = t) ∧
      (∃ p, respFind resp "persona".toList = some (.str p) ∧
        (p = "deceiver".toList ∨ p = "guardian".toList)) ∧
      respFind resp "outcome".toList = none := by
  rw [chat_ok catalog cp call store req rid cfg hch hcat hm hlen]
  exact ⟨_, _, rfl, ⟨_, respFind_reply _ _ _ _⟩,
    ⟨_, _, respFind_trust _ _ _ _, storeFind_storeSet_self _ _ _, rfl⟩,
    ⟨_, respFind_persona _ _ _ _, personaOf_cases _⟩,
    respFind_outcome _ _ _ _⟩

/-- C1 (witness): the amended claim at a concrete request ("hi there" to
"maya" against the scenario catalog, demo mode, empty store). -/
theorem handleChat_response_fields_witness :
    ∃ store' resp,
      chat demoCatalog false (.err []) [] probeReq "r1".toList = .ok (store', resp) ∧
      (∃ r, respFind resp "reply".toList = some (.str r)) ∧
      (∃ t s', respFind resp "trust_score".toList = some (.int t) ∧
        storeFind store' (normSessionId probeReq.sessionId) = some s' ∧
        s'.trust_score = t) ∧
      (∃ p, respFind resp "persona".toList = some (.str p) ∧
        (p = "deceiver".toList ∨ p = "guardian".toList)) ∧
      respFind resp "outcome".toList = none :=
  handleChat_response_fields demoCatalog false (.err []) [] probeReq "r1".toList
    scenarioCfg (by decide) (by decide) (by decide) (by decide)

/-- C1 (counterexample): at the concrete request "hi there" to character
"maya" on a fresh store, the response object returned by the chat handler
has no "outcome" key at all, and none of its values is one of the outcome
labels "success"/"fail"/"neutral" — so the claim that the returned record
contains an outcome label drawn from that set fails. -/
theorem handleChat_outcome_missing :
    (match chat demoCatalog false (.err []) [] probeReq "r1".toList with
     | .ok r => respFind r.2 "outcome".toList
     | .error _ => some (.int 0)) = none ∧
    (match chat demoCatalog false (.err []) [] probeReq "r1".toList with
     | .ok r => r.2.all fun p =>
         !(p.2 == Val.str "success".toList || p.2 == Val.str "fail".toList ||
           p.2 == Val.str "neutral".toList)
     | .error _ => false) = true := by
  decide

/-! ### Claim C3: the chat handler never touches wrong_count / logo_stage -/

/-- C3: a successful chat call changes only the trust score of the bound
session. If the session already existed for the same character, its
wrong_count and logo_stage carry over unchanged (only trust_score is
rewritten); if it did not exist or was bound to another character, the
stored session is the freshly created one (wrong_count 0, logo_stage 1)
with only its trust score updated; every other session in the store is
untouched. The outcome engine `decide_outcome_and_update` does not occur
in `chat` at all. -/
theorem chat_touches_only_trust_score
    (catalog : Catalog) (cp : Bool) (call : ModelCall) (store : Store)
    (req : ChatRequest) (rid : List Char) (store' : Store) (resp : Response)
    (hok : chat catalog cp call store req rid = .ok (store', resp)) :
    (∀ s, storeFind store (normSessionId req.sessionId) = some s →
      s.character = normChar req.character →
      ∃ t, storeFind store' (normSessionId req.sessionId) =
        some { s with trust_score := t }) ∧
    ((storeFind store (normSessionId req.sessionId) = none ∨
      (∃ s, storeFind store (normSessionId req.sessionId) = some s ∧
        ¬ s.character = normChar req.character)) →
      ∃ t, storeFind store' (normSessionId req.sessionId) =
        some { freshSession (normChar req.character) with trust_score := t }) ∧
    (∀ sid, ¬ sid = normSessionId req.sessionId →
      storeFind store' sid = storeFind store sid) := by
  obtain ⟨cfg, h1, hcat, h2, h3⟩ :=
    chat_ok_inv catalog cp call store req rid store' resp hok
  rw [chat_ok catalog cp call store req rid cfg h1 hcat h2 h3] at hok
  dsimp only at hok
  injection hok with hok
  injection hok with hS hL
  subst hS
  subst hL
  refine ⟨?_, ?_, ?_⟩
  · intro s hs hsc
    rw [get_session_found_same store (normSessionId req.sessionId)
      (normChar req.character) s hs hsc]
    exact ⟨_, storeFind_storeSet_self _ _ _⟩
  · intro h
    rcases h with hnone | ⟨s, hs, hsc⟩
    · rw [get_session_fresh store (normSessionId req.sessionId)
        (normChar req.character) hnone]
      exact ⟨_, storeFind_storeSet_self _ _ _⟩
    · rw [get_session_rebind store (normSessionId req.sessionId)
        (normChar req.character) s hs hsc]
      exact ⟨_, storeFind_storeSet_self _ _ _⟩
  · intro sid hne
    cases hfind : storeFind store (normSessionId req.sessionId) with
    | none =>
        rw [get_session_fresh store (normSessionId req.sessionId)
          (normChar req.character) hfind]
        dsimp only
        rw [storeFind_storeSet_ne _ _ _ _ hne, storeFind_storeSet_ne _ _ _ _ hne]
    | some s =>
        by_cases hc : s.character = normChar req.character
        · rw [get_session_found_same store (normSessionId req.sessionId)
            (normChar req.character) s hfind hc]
          dsimp only
          rw [storeFind_storeSet_ne _ _ _ _ hne]
        · rw [get_session_rebind store (normSessionId req.sessionId)
            (normChar req.character) s hfind hc]
          dsimp only
          rw [storeFind_storeSet_ne _ _ _ _ hne, storeFind_storeSet_ne _ _ _ _ hne]

/-- C3 (witness): a concrete chat call on an empty store leaves an
unrelated session id untouched. -/
theorem chat_touches_only_trust_score_witness :
    storeFind probeResult.1 "other".toList = storeFind ([] : Store) "other".toList :=
  (chat_touches_only_trust_score demoCatalog false (.err []) [] probeReq
    "r1".toList probeResult.1 probeResult.2 rfl).2.2 "other".toList (by decide)

/-! ### Claim C7: persona is a pure projection of the trust score -/

theorem personaOf_deceiver_iff (t : Int) :
    personaOf t = "deceiver".toList ↔ t ≥ 0 := by
  unfold personaOf
  by_cases h : t ≥ 0
  · rw [if_pos h]
    exact ⟨fun _ => h, fun _ => rfl⟩
  · rw [if_neg h]
    exact ⟨fun habs => absurd habs (by decide), fun ht => absurd ht h⟩

theorem personaOf_guardian_iff (t : Int) :
    personaOf t = "guardian".toList ↔ t < 0 := by
  unfold personaOf
  by_cases h : t ≥ 0
  · rw [if_pos h]
    exact ⟨fun habs => absurd habs (by decide), fun ht => absurd ht (not_lt.mpr h)⟩
  · rw [if_neg h]
    exact ⟨fun _ => not_le.mp h, fun _ => rfl⟩

/-- C7: on every successful chat call the returned persona is exactly
`personaOf` applied to the trust score the same response reports (the
score after this request's update): "deceiver" iff that score is ≥ 0 and
"guardian" iff it is < 0 — a pure function of the current trust score,
recomputed per request, with no other state involved. -/
theorem persona_pure_projection_of_trust
    (catalog : Catalog) (cp : Bool) (call : ModelCall) (store : Store)
    (req : ChatRequest) (rid : List Char) (store' : Store) (resp : Response)
    (hok : chat catalog cp call store req rid = .ok (store', resp)) :
    ∃ t : Int, respFind resp "trust_score".toList = some (.int t) ∧
      respFind resp "persona".toList = some (.str (personaOf t)) ∧
      (personaOf t = "deceiver".toList ↔ t ≥ 0) ∧
      (personaOf t = "guardian".toList ↔ t < 0) := by
  obtain ⟨cfg, h1, hcat, h2, h3⟩ :=
    chat_ok_inv catalog cp call store req rid store' resp hok
  rw [chat_ok catalog cp call store req rid cfg h1 hcat h2 h3] at hok
  dsimp only at hok
  injection hok with hok
  injection hok with hS hL
  subst hS
  subst hL
  exact ⟨_, respFind_trust _ _ _ _, respFind_persona _ _ _ _,
    personaOf_deceiver_iff _, personaOf_guardian_iff _⟩

/-- C7 (witness): the persona/trust relation at the concrete probe call. -/
theorem persona_pure_projection_witness :
    ∃ t : Int, respFind probeResult.2 "trust_score".toList = some (.int t) ∧
      respFind probeResult.2 "persona".toList = some (.str (personaOf t)) ∧
      (personaOf t = "deceiver".toList ↔ t ≥ 0) ∧
      (personaOf t = "guardian".toList ↔ t < 0) :=
  persona_pure_projection_of_trust demoCatalog false (.err []) [] probeReq
    "r1".toList probeResult.1 probeResult.2 rfl

/-! ### Claim C5: Success is checked before Fail -/

/-- C5: if a message contains (case-insensitively) both a success keyword
and a fail keyword of the character, the outcome engine classifies it
"success", and the chat handler's trust update subtracts 20 (the
success branch wins in both places, because the success check is performed
first). -/
theorem success_beats_fail_tiebreak
    (cfg : CharCfg) (s : Session) (m : List Char) (fb : Bool)
    (hs : contains_any m cfg.intent_rules.success_keywords = true)
    (hf : contains_any m cfg.intent_rules.fail_keywords = true)
    (catalog : Catalog) (cp : Bool) (call : ModelCall) (store : Store)
    (req : ChatRequest) (rid : List Char)
    (hch : ¬ normChar req.character = [])
    (hcat : catFind catalog (normChar req.character) = some cfg)
    (hmsg : pyStrip req.message = m)
    (hm : ¬ m = []) (hlen : ¬ 1000 < m.length) :
    (decide_outcome_and_update s cfg m fb).2 = "success".toList ∧
    chatTrust cfg m
        (get_session store (normSessionId req.sessionId)
          (normChar req.character)).2.trust_score =
      (get_session store (normSessionId req.sessionId)
        (normChar req.character)).2.trust_score - 20 ∧
    ∃ resp, chat catalog cp call store req rid =
      .ok (storeSet
          (get_session store (normSessionId req.sessionId) (normChar req.character)).1
          (normSessionId req.sessionId)
          { (get_session store (normSessionId req.sessionId) (normChar req.character)).2 with
              trust_score :=
                (get_session store (normSessionId req.sessionId)
                  (normChar req.character)).2.trust_score - 20 },
        resp) ∧
      respFind resp "trust_score".toList =
        some (.int ((get_session store (normSessionId req.sessionId)
          (normChar req.character)).2.trust_score - 20)) := by
  subst hmsg
  have ht : ∀ t : Int, chatTrust cfg (pyStrip req.message) t = t - 20 := by
    intro t
    simp only [chatTrust]
    rw [if_pos hs]
  refine ⟨by simp [decide_outcome_and_update, hs], ht _, ?_⟩
  rw [chat_ok catalog cp call store req rid cfg hch hcat hm hlen]
  dsimp only
  rw [ht]
  exact ⟨_, rfl, respFind_trust _ _ _ _⟩

/-- C5 (witness): the tie-break at a concrete message containing both
"sorry" and "click here". -/
theorem success_beats_fail_tiebreak_witness :
    (decide_outcome_and_update (freshSession "maya".toList) scenarioCfg
      "sorry but i will click here".toList false).2 = "success".toList :=
  (success_beats_fail_tiebreak scenarioCfg (freshSession "maya".toList)
    "sorry but i will click here".toList false (by decide) (by decide)
    demoCatalog false (.err []) []
    { message := "sorry but i will click here".toList,
      character := "maya".toList, sessionId := none }
    "r1".toList (by decide) (by decide) (by decide) (by decide) (by decide)).1

/-! ### Claim C8: rebinding a session resets it -/

/-- C8: when a stored session is bound to a different character than the
request's, `get_session` discards it and recreates it from scratch: the
session the handler receives is the fresh one (character rebound,
wrong_count 0, logo_stage 1, trust_score 0 regardless of the prior
counters), the store now holds that fresh session, and a chat request
hitting this store computes its trust update from base 0. -/
theorem session_rebind_resets_counters
    (store : Store) (sid ch : List Char) (s : Session)
    (hfind : storeFind store sid = some s) (hne : ¬ s.character = ch) :
    (get_session store sid ch).2 = freshSession ch ∧
    storeFind (get_session store sid ch).1 sid = some (freshSession ch) ∧
    (freshSession ch).character = ch ∧
    (freshSession ch).wrong_count = 0 ∧
    (freshSession ch).logo_stage = 1 ∧
    (freshSession ch).trust_score = 0 ∧
    (∀ (catalog : Catalog) (cp : Bool) (call : ModelCall) (req : ChatRequest)
       (rid : List Char) (cfg : CharCfg),
      normChar req.character = ch → normSessionId req.sessionId = sid →
      ¬ ch = [] → catFind catalog ch = some cfg →
      ¬ pyStrip req.message = [] → ¬ 1000 < (pyStrip req.message).length →
      ∃ resp, chat catalog cp call store req rid = .ok
        (storeSet (storeSet store sid (freshSession ch)) sid
          { freshSession ch with
              trust_score := chatTrust cfg (pyStrip req.message) 0 }, resp)) := by
  have hgs := get_session_rebind store sid ch s hfind hne
  refine ⟨by rw [hgs], by rw [hgs]; exact storeFind_storeSet_self _ _ _,
    rfl, rfl, rfl, rfl, ?_⟩
  intro catalog cp call req rid cfg hc hsid hch hcat hm hlen
  rw [chat_ok catalog cp call store req rid cfg (by rw [hc]; exact hch)
    (by rw [hc]; exact hcat) hm hlen]
  dsimp only
  rw [hc, hsid, hgs]
  dsimp only [freshSession]
  exact ⟨_, rfl⟩

/-- A session with accumulated counters, bound to "maya". -/
def preSession : Session :=
  { character := "maya".toList, wrong_count := 3, logo_stage := 4, trust_score := 40 }

/-- A store holding `preSession` under session id "s1". -/
def preStore : Store := [("s1".toList, preSession)]

/-- C8 (witness): rebinding session "s1" from "maya" (with accumulated
counters) to "eli" yields the fresh "eli" session. -/
theorem session_rebind_witness :
    (get_session preStore "s1".toList "eli".toList).2 = freshSession "eli".toList :=
  (session_rebind_resets_counters preStore "s1".toList "eli".toList preSession
    (by decide) (by decide)).1

/-! ### Claim C6: trust score steps and unboundedness -/

/-- Iterate the chat handler with a fixed request, threading the store
through successive calls (an error leaves the store unchanged). -/
def chatIter (catalog : Catalog) (cp : Bool) (call : ModelCall)
    (req : ChatRequest) (rid : List Char) : Nat → Store → Store
  | 0, store => store
  | n + 1, store =>
      match chat catalog cp call store req rid with
      | .ok r => chatIter catalog cp call req rid n r.1
      | .error _ => store

/-- A request whose message matches the scenario character's success
keyword. -/
def sorryReq : ChatRequest :=
  { message := "sorry".toList, character := "maya".toList, sessionId := none }

/-- A request whose message matches the scenario character's fail
keyword. -/
def clickReq : ChatRequest :=
  { message := "click here".toList, character := "maya".toList, sessionId := none }

/-- The trust score of the "default" session in a store (0 when absent,
matching the handler's defaulted read). -/
def trustAt (store : Store) : Int :=
  match storeFind store "default".toList with
  | some s => s.trust_score
  | none => 0

/-- The default session after one success-classified chat call from an
empty store. -/
def negSession : Session :=
  { character := "maya".toList, wrong_count := 0, logo_stage := 1, trust_score := -20 }

/-- The default session after one fail-classified chat call from an
empty store. -/
def posSession : Session :=
  { character := "maya".toList, wrong_count := 0, logo_stage := 1, trust_score := 20 }

/-- Each chat call against the scenario catalog, with a fixed request whose
trust update adds `d`, shifts the default session's trust score by `d`,
leaving its other fields alone; after `k` calls the shift is `d * k`. -/
theorem chatIter_maya_delta (req : ChatRequest) (d : Int)
    (hch : normChar req.character = "maya".toList)
    (hm : ¬ pyStrip req.message = [])
    (hlen : ¬ 1000 < (pyStrip req.message).length)
    (hsid : normSessionId req.sessionId = "default".toList)
    (hstep : ∀ t : Int, chatTrust scenarioCfg (pyStrip req.message) t = t + d)
    (k : Nat) :
    ∀ (store : Store) (s : Session),
      storeFind store "default".toList = some s →
      s.character = "maya".toList →
      storeFind (chatIter demoCatalog false (.err []) req "r1".toList k store)
        "default".toList = some { s with trust_score := s.trust_score + d * k } := by
  induction k with
  | zero =>
      intro store s hfind hsc
      simpa [chatIter] using hfind
  | succ n ih =>
      intro store s hfind hsc
      have hok := chat_ok demoCatalog false (.err []) store req "r1".toList scenarioCfg
        (by rw [hch]; decide) (by rw [hch]; decide) hm hlen
      dsimp only at hok
      rw [hsid, hch] at hok
      rw [get_session_found_same store "default".toList "maya".toList s hfind hsc] at hok
      dsimp only at hok
      rw [hstep] at hok
      simp only [chatIter]
      rw [hok]
      dsimp only
      have hres := ih (storeSet store "default".toList
          { s with trust_score := s.trust_score + d })
        { s with trust_score := s.trust_score + d }
        (storeFind_storeSet_self _ _ _) hsc
      rw [hres]
      simp only [Option.some.injEq, Session.mk.injEq]
      refine ⟨trivial, trivial, trivial, ?_⟩
      push_cast
      ring

/-- C6: the trust score starts at 0 on a fresh session; the chat handler's
update subtracts exactly 20 on a Success classification, adds exactly 20 on
a Fail classification, and leaves the score unchanged on Neutral; and there
is no clamp — for every n, n+1 requests matching a success keyword drive
the stored trust score below -20n, and n+1 requests matching a fail
keyword drive it above +20n, without error. -/
theorem trust_score_unbounded :
    (∀ ch : List Char, (freshSession ch).trust_score = 0) ∧
    (∀ (cfg : CharCfg) (m : List Char) (t : Int),
      (contains_any m cfg.intent_rules.success_keywords = true →
        chatTrust cfg m t = t - 20) ∧
      (contains_any m cfg.intent_rules.success_keywords = false →
        contains_any m cfg.intent_rules.fail_keywords = true →
        chatTrust cfg m t = t + 20) ∧
      (contains_any m cfg.intent_rules.success_keywords = false →
        contains_any m cfg.intent_rules.fail_keywords = false →
        chatTrust cfg m t = t)) ∧
    (∀ n : Nat,
      trustAt (chatIter demoCatalog false (.err []) sorryReq "r1".toList (n + 1) []) <
        -20 * n ∧
      20 * n <
        trustAt (chatIter demoCatalog false (.err []) clickReq "r1".toList (n + 1) [])) := by
  refine ⟨fun ch => rfl, ?_, ?_⟩
  · intro cfg m t
    refine ⟨fun hs => ?_, fun hs hf => ?_, fun hs hf => ?_⟩ <;>
      simp [chatTrust, hs]
    · simp [hf]
    · simp [hf]
  · intro n
    constructor
    · obtain ⟨r, hr, hr1⟩ :
          ∃ r, chat demoCatalog false (.err []) [] sorryReq "r1".toList = .ok r ∧
            r.1 = [("default".toList, negSession)] :=
        ⟨(match chat demoCatalog false (.err []) [] sorryReq "r1".toList with
          | .ok r => r
          | .error _ => ([], [])), rfl, by decide⟩
      have hstepS : ∀ t : Int, chatTrust scenarioCfg (pyStrip sorryReq.message) t =
          t + (-20) := by
        intro t
        simp only [chatTrust]
        rw [if_pos (by decide)]
        omega
      have hiter := chatIter_maya_delta sorryReq (-20) (by decide) (by decide)
        (by decide) (by decide) hstepS n
        [("default".toList, negSession)] negSession (by decide) (by decide)
      simp only [chatIter]
      rw [hr]
      dsimp only
      rw [hr1]
      simp only [trustAt]
      rw [hiter]
      dsimp only [negSession]
      omega
    · obtain ⟨r, hr, hr1⟩ :
          ∃ r, chat demoCatalog false (.err []) [] clickReq "r1".toList = .ok r ∧
            r.1 = [("default".toList, posSession)] :=
        ⟨(match chat demoCatalog false (.err []) [] clickReq "r1".toList with
          | .ok r => r
          | .error _ => ([], [])), rfl, by decide⟩
      have hstepC : ∀ t : Int, chatTrust scenarioCfg (pyStrip clickReq.message) t =
          t + 20 := by
        intro t
        simp only [chatTrust]
        rw [if_neg (by decide), if_pos (by decide)]
      have hiter := chatIter_maya_delta clickReq 20 (by decide) (by decide)
        (by decide) (by decide) hstepC n
        [("default".toList, posSession)] posSession (by decide) (by decide)
      simp only [chatIter]
      rw [hr]
      dsimp only
      rw [hr1]
      simp only [trustAt]
      rw [hiter]
      dsimp only [posSession]
      omega

/-- C6 (witness): the step rules at concrete inputs and the unboundedness
bound at n = 1. -/
theorem trust_score_unbounded_witness :
    (freshSession "maya".toList).trust_score = 0 ∧
    chatTrust scenarioCfg "sorry".toList 0 = 0 - 20 ∧
    chatTrust scenarioCfg "click here".toList 0 = 0 + 20 ∧
    chatTrust scenarioCfg "hello".toList 0 = 0 ∧
    trustAt (chatIter demoCatalog false (.err []) sorryReq "r1".toList 2 []) <
      -20 * (1 : Nat) ∧
    20 * (1 : Nat) <
      trustAt (chatIter demoCatalog false (.err []) clickReq "r1".toList 2 []) :=
  ⟨trust_score_unbounded.1 "maya".toList,
   (trust_score_unbounded.2.1 scenarioCfg "sorry".toList 0).1 (by decide),
   (trust_score_unbounded.2.1 scenarioCfg "click here".toList 0).2.1
     (by decide) (by decide),
   (trust_score_unbounded.2.1 scenarioCfg "hello".toList 0).2.2
     (by decide) (by decide),
   (trust_score_unbounded.2.2 1).1,
   (trust_score_unbounded.2.2 1).2⟩

end DataBleed
